import Mathlib

/- Verification of the stock-status core of the materials-inventory dashboard.

   The embedded code:
   - the database trigger function update_material_status (status and
     shortage-date derivation), from the SQL migration;
   - getRecommendedOrderQty and the two getDaysUntilShortage helpers of the
     Materials page and the reorder report;
   - the reorder-report query (filter to critical/low, ORDER BY status);
   - handleSubmit of the StockUpdates page (the stock-adjustment ledger).

   Quantities are NUMERIC in the database and JS numbers in the client; both
   are modelled as rationals. Timestamps are modelled as rationals (seconds)
   for the trigger and as integers (milliseconds, as Date.getTime returns)
   for the client helpers. -/

namespace Inventory

/-- Stock status enum, in its declaration order (critical, low, safe); the
declaration order is the sort order used by ORDER BY on the column. -/
inductive StockStatus
  | critical
  | low
  | safe
deriving DecidableEq, Repr

/-- Status branch of the trigger function update_material_status: critical if
quantity at or below safety stock, else low if at or below the reorder point,
else safe. -/
def update_material_status (current_quantity safety_stock reorder_point : ℚ) :
    StockStatus :=
  if current_quantity ≤ safety_stock then .critical
  else if current_quantity ≤ reorder_point then .low
  else .safe

/-- Severity rank of a status: critical is the most severe. -/
def severity : StockStatus → ℕ
  | .critical => 2
  | .low => 1
  | .safe => 0

/-- Shortage-date branch of the trigger function update_material_status:
when avg_daily_usage is positive the new shortage_date is NOW() plus the
interval obtained by concatenating current_quantity / avg_daily_usage with
the word days and casting to INTERVAL; otherwise NULL. The NUMERIC division
keeps its fractional part and the interval cast turns fractional days into
hours and minutes, so the timestamp is now + (q / u) * 86400 seconds. -/
def trigShortageDate (current_quantity avg_daily_usage now : ℚ) : Option ℚ :=
  if 0 < avg_daily_usage then
    some (now + current_quantity / avg_daily_usage * 86400)
  else none

/-- Spec-side comparator for the shortage-date claim: now plus
floor(q / u) whole days, the fractional remainder truncated. Written from the
claim text, to be compared with trigShortageDate. -/
def deriveShortageDateSpec (current_quantity avg_daily_usage now : ℚ) :
    Option ℚ :=
  if 0 < avg_daily_usage then
    some (now + (⌊current_quantity / avg_daily_usage⌋ : ℚ) * 86400)
  else none

/-- getRecommendedOrderQty of the reorder report:
Math.max(0, Math.ceil(lead_time_days * avg_daily_usage + safety_stock
- current_quantity)). -/
def getRecommendedOrderQty (lead_time_days : ℤ)
    (avg_daily_usage safety_stock current_quantity : ℚ) : ℤ :=
  max 0
    ⌈(lead_time_days : ℚ) * avg_daily_usage + safety_stock - current_quantity⌉

/-- Rendered outcome of the Materials-page days-to-shortage cell: the N/A
text, a number of days, or the Stock out text. -/
inductive ShortageDisplay
  | na
  | days (n : ℤ)
  | stockOut
deriving DecidableEq, Repr

/-- getDaysUntilShortage of the Materials page: N/A without a shortage date;
otherwise Math.floor of the millisecond difference over 1000*60*60*24,
shown as a day count when positive and as Stock out otherwise. Timestamps
are milliseconds, as Date.getTime returns. -/
def getDaysUntilShortage (shortage_date : Option ℤ) (now : ℤ) :
    ShortageDisplay :=
  match shortage_date with
  | none => .na
  | some t =>
    let d : ℤ := ⌊((t : ℚ) - (now : ℚ)) / (1000 * 60 * 60 * 24)⌋
    if 0 < d then .days d else .stockOut

/-- getDaysUntilShortage of the reorder report: null without a shortage date;
otherwise the same floored day count, returned as the number itself when
positive and as the number 0 otherwise. -/
def getDaysUntilShortageReport (shortage_date : Option ℤ) (now : ℤ) :
    Option ℤ :=
  match shortage_date with
  | none => none
  | some t =>
    let d : ℤ := ⌊((t : ℚ) - (now : ℚ)) / (1000 * 60 * 60 * 24)⌋
    some (if 0 < d then d else 0)

/-- Row of the reorder-report query, reduced to the columns that the filter
and the ordering touch (the other selected columns do not influence which
rows come back or in which order). -/
structure ReorderMaterial where
  material_code : String
  status : StockStatus
deriving DecidableEq, Repr

/-- Position of a status in the enum declaration order, the sort key that
ORDER BY uses on the column. -/
def statusKey : StockStatus → ℕ
  | .critical => 0
  | .low => 1
  | .safe => 2

/-- Filter of the reorder-report query:
or(status.eq.critical,status.eq.low). -/
def reorderFilter (rows : List ReorderMaterial) : List ReorderMaterial :=
  rows.filter fun m => m.status == .critical || m.status == .low

/-- order(status) of the reorder-report query: rows sorted by the status
sort key alone, rows with equal keys kept in their stored relative order.
With a three-valued key this is the three buckets in key order. -/
def orderByStatus (rows : List ReorderMaterial) : List ReorderMaterial :=
  (rows.filter fun m => statusKey m.status == 0) ++
    (rows.filter fun m => statusKey m.status == 1) ++
    (rows.filter fun m => statusKey m.status == 2)

/-- fetchReorderMaterials of the reorder report: the filtered rows, ordered
by status. -/
def fetchReorderMaterials (rows : List ReorderMaterial) :
    List ReorderMaterial :=
  orderByStatus (reorderFilter rows)

/-- Ordering the claim asserts inside a status tier: among rows of equal
status, material codes never decrease. -/
def withinTierByCode (l : List ReorderMaterial) : Prop :=
  l.Pairwise fun a b => a.status = b.status → ¬ b.material_code < a.material_code

/-- Update reason enum; ret stands for the enum value named return in the
database, which is a reserved word here. -/
inductive UpdateReason
  | purchase
  | production_use
  | adjustment
  | damage
  | ret
deriving DecidableEq, Repr

/-- Material row as the StockUpdates page fetches it into its client-side
list (id, material_code, name, current_quantity, unit). -/
structure ClientMaterial where
  id : String
  material_code : String
  name : String
  current_quantity : ℚ
  unit : String
deriving DecidableEq, Repr

/-- A stock_history row as handleSubmit inserts it. -/
structure HistoryEntry where
  material_id : String
  user_id : String
  quantity_before : ℚ
  quantity_after : ℚ
  quantity_change : ℚ
  reason : UpdateReason
  notes : Option String
deriving DecidableEq, Repr

/-- Material row in the store, reduced to the columns handleSubmit writes. -/
structure DbMaterial where
  id : String
  current_quantity : ℚ
deriving DecidableEq, Repr

/-- The two tables handleSubmit touches. -/
structure Db where
  materials : List DbMaterial
  stock_history : List HistoryEntry
deriving DecidableEq, Repr

/-- Inputs of one handleSubmit run: the fetched client material list, the
form state, the auth.getUser result, and the storage responses to the two
separate write requests the handler makes (true means the request comes back
with a non-null error). -/
structure SubmitEnv where
  materials : List ClientMaterial
  selectedMaterial : String
  quantityChange : ℚ
  reason : UpdateReason
  notes : String
  user : Option String
  updateFails : Bool
  insertFails : Bool
deriving Repr

/-- Control-flow outcome of one handleSubmit run, one constructor per exit
point of the handler. The err outcomes raise a destructive toast, success
raises a success toast, and the two silent outcomes are bare returns with no
user-visible report. -/
inductive Outcome
  | errSelectMaterial
  | silentNoMaterial
  | errNegative
  | silentNoUser
  | errUpdate
  | errHistory
  | success
deriving DecidableEq, Repr

/-- True for the outcomes that surface a failure to the user (a destructive
toast); false for the silent returns and for success. -/
def isSurfacedError : Outcome → Bool
  | .errSelectMaterial => true
  | .errNegative => true
  | .errUpdate => true
  | .errHistory => true
  | _ => false

/-- handleSubmit of the StockUpdates page, step for step: reject an empty
selection (toast), silently return when the selected id is not in the client
list, compute newQuantity = current_quantity + quantityChange, reject a
negative result before any write (toast), silently return when
auth.getUser yields no user, then issue the materials update and, only if
that succeeded, the stock_history insert; each failed request stops the
handler with an error toast, with no rollback of the earlier write. -/
def handleSubmit (env : SubmitEnv) (db : Db) : Db × Outcome :=
  if env.selectedMaterial = "" then (db, .errSelectMaterial)
  else
    match env.materials.find? (fun m => m.id == env.selectedMaterial) with
    | none => (db, .silentNoMaterial)
    | some material =>
      let newQuantity := material.current_quantity + env.quantityChange
      if newQuantity < 0 then (db, .errNegative)
      else
        match env.user with
        | none => (db, .silentNoUser)
        | some user =>
          if env.updateFails then (db, .errUpdate)
          else
            let db1 : Db :=
              { db with
                materials := db.materials.map fun m =>
                  if m.id == env.selectedMaterial then
                    { m with current_quantity := newQuantity }
                  else m }
            if env.insertFails then (db1, .errHistory)
            else
              let entry : HistoryEntry :=
                { material_id := env.selectedMaterial
                  user_id := user
                  quantity_before := material.current_quantity
                  quantity_after := newQuantity
                  quantity_change := env.quantityChange
                  reason := env.reason
                  notes := if env.notes = "" then none else some env.notes }
              ({ db1 with stock_history := entry :: db1.stock_history },
                .success)

/-- Client material used by the concrete ledger scenarios. -/
def steelClient : ClientMaterial :=
  { id := "m1"
    material_code := "STL-001"
    name := "Cold Rolled Steel Sheet"
    current_quantity := 450
    unit := "kg" }

/-- Store contents used by the concrete ledger scenarios. -/
def steelDb : Db :=
  { materials := [{ id := "m1", current_quantity := 450 }]
    stock_history := [] }

/-- Scenario for the atomicity claim: a valid -50 adjustment by an
authenticated user where the materials update succeeds and the
stock_history insert comes back with an error. -/
def envInsertFailure : SubmitEnv :=
  { materials := [steelClient]
    selectedMaterial := "m1"
    quantityChange := -50
    reason := .production_use
    notes := ""
    user := some "u1"
    updateFails := false
    insertFails := true }

/-- Scenario for the negative-quantity claim: an adjustment of -500 against
a current quantity of 450. -/
def envNegative : SubmitEnv :=
  { materials := [steelClient]
    selectedMaterial := "m1"
    quantityChange := -500
    reason := .adjustment
    notes := ""
    user := some "u1"
    updateFails := false
    insertFails := false }

/-- Scenario for the authentication claim: a valid +100 adjustment where
auth.getUser yields no user. -/
def envNoUser : SubmitEnv :=
  { materials := [steelClient]
    selectedMaterial := "m1"
    quantityChange := 100
    reason := .purchase
    notes := ""
    user := none
    updateFails := false
    insertFails := false }

/-- Scenario for a fully successful adjustment of -50. -/
def envSuccess : SubmitEnv :=
  { materials := [steelClient]
    selectedMaterial := "m1"
    quantityChange := -50
    reason := .production_use
    notes := ""
    user := some "u1"
    updateFails := false
    insertFails := false }

/-- C1: for every currentQuantity, safetyStock and reorderPoint, the trigger
derives critical exactly when the quantity is at or below safety stock
(whatever the reorder point is), low exactly when it is above safety stock
but at or below the reorder point, and safe exactly when it is above both;
each boundary case (equality) falls in the more severe state. -/
theorem C1_status_characterization (q s r : ℚ) :
    (update_material_status q s r = .critical ↔ q ≤ s) ∧
    (update_material_status q s r = .low ↔ s < q ∧ q ≤ r) ∧
    (update_material_status q s r = .safe ↔ s < q ∧ r < q) := by
  unfold update_material_status
  split_ifs with h1 h2 <;>
    refine ⟨?_, ?_, ?_⟩ <;> simp_all

/-- C10: for fixed safety stock and reorder point the derived status is
antitone in the quantity: a smaller quantity never gets a strictly less
severe status. -/
theorem C10_status_monotone (s r q1 q2 : ℚ) (h : q1 ≤ q2) :
    severity (update_material_status q2 s r) ≤
      severity (update_material_status q1 s r) := by
  unfold update_material_status severity
  split_ifs <;> simp_all <;> linarith

theorem C10_status_monotone_witness :
    severity (update_material_status 5 2 3) ≤
      severity (update_material_status 1 2 3) :=
  C10_status_monotone 2 3 1 5 (by norm_num)

/-- C6: the recommended order quantity is max(0, ceil(lead * usage + safety
- current)); it is never negative and it is zero exactly when the current
quantity already covers lead-time consumption plus safety stock. -/
theorem C6_recommended_order_qty (lead : ℤ) (usage safety current : ℚ) :
    getRecommendedOrderQty lead usage safety current =
        max 0 ⌈(lead : ℚ) * usage + safety - current⌉ ∧
    0 ≤ getRecommendedOrderQty lead usage safety current ∧
    (getRecommendedOrderQty lead usage safety current = 0 ↔
        (lead : ℚ) * usage + safety ≤ current) := by
  refine ⟨rfl, le_max_left _ _, ?_⟩
  unfold getRecommendedOrderQty
  rw [max_eq_left_iff]
  constructor
  · intro h
    have := Int.ceil_le.mp h
    push_cast at this
    linarith
  · intro h
    refine Int.ceil_le.mpr ?_
    push_cast
    linarith

/-- C5 counterexample: at current_quantity 9, avg_daily_usage 2 and now 0 the
trigger yields 4.5 days (388800 seconds), not the truncated 4 whole days
(345600 seconds) the claim states. -/
theorem C5_shortage_counterexample :
    trigShortageDate 9 2 0 = some 388800 ∧
    deriveShortageDateSpec 9 2 0 = some 345600 ∧
    trigShortageDate 9 2 0 ≠ deriveShortageDateSpec 9 2 0 := by
  have hfloor : ⌊(9 / 2 : ℚ)⌋ = 4 := by
    norm_num [Int.floor_eq_iff]
  refine ⟨?_, ?_, ?_⟩ <;>
    simp [trigShortageDate, deriveShortageDateSpec, hfloor] <;> norm_num

/-- C5 amended: the trigger returns null exactly when avg_daily_usage is not
positive; otherwise it returns now plus (q / u) days with the fractional-day
remainder kept, a timestamp in the window [now + floor(q / u) days,
now + (floor(q / u) + 1) days) that equals the truncated value only when
q / u is a whole number. -/
theorem C5_shortage_amended (q u now : ℚ) :
    (u ≤ 0 → trigShortageDate q u now = none) ∧
    (0 < u →
      trigShortageDate q u now = some (now + q / u * 86400) ∧
      now + (⌊q / u⌋ : ℚ) * 86400 ≤ now + q / u * 86400 ∧
      now + q / u * 86400 < now + ((⌊q / u⌋ : ℚ) + 1) * 86400 ∧
      (now + q / u * 86400 = now + (⌊q / u⌋ : ℚ) * 86400 ↔
        (⌊q / u⌋ : ℚ) = q / u)) := by
  constructor
  · intro h
    unfold trigShortageDate
    rw [if_neg (not_lt.mpr h)]
  · intro h
    have h1 : (⌊q / u⌋ : ℚ) ≤ q / u := Int.floor_le _
    have h2 : q / u < (⌊q / u⌋ : ℚ) + 1 := Int.lt_floor_add_one _
    refine ⟨?_, ?_, ?_, ?_⟩
    · unfold trigShortageDate
      rw [if_pos h]
    · nlinarith
    · nlinarith
    · constructor
      · intro heq
        have h3 : q / u * 86400 = (⌊q / u⌋ : ℚ) * 86400 := by linarith
        exact (mul_right_cancel₀ (by norm_num : (86400 : ℚ) ≠ 0) h3).symm
      · intro heq
        rw [heq]

theorem C5_shortage_amended_witness :
    trigShortageDate 9 0 0 = none ∧
    trigShortageDate 9 2 0 = some (0 + 9 / 2 * 86400) :=
  ⟨(C5_shortage_amended 9 0 0).1 (by norm_num),
   ((C5_shortage_amended 9 2 0).2 (by norm_num)).1⟩

/-- C8 counterexample: with a shortage date one day in the past the
reorder-report variant reports the number 0 (rendered as 0 days), not a
stock-out sentinel; the Materials-page variant does use the sentinel. -/
theorem C8_days_counterexample :
    getDaysUntilShortageReport (some 0) 86400000 = some 0 ∧
    getDaysUntilShortage (some 0) 86400000 = .stockOut := by
  constructor <;>
    norm_num [getDaysUntilShortageReport, getDaysUntilShortage]

/-- C8 amended: both variants return their empty marker exactly when there is
no shortage date and otherwise compute floor((shortageDate - now) / 1 day);
a positive result is reported as that day count by both, while a result at
or below zero is reported as Stock out by the Materials page and clamped to
the number 0 by the reorder report. -/
theorem C8_days_amended (sd : Option ℤ) (now : ℤ) :
    (sd = none →
      getDaysUntilShortage sd now = .na ∧
      getDaysUntilShortageReport sd now = none) ∧
    (∀ t, sd = some t →
      (0 < ⌊((t : ℚ) - (now : ℚ)) / (1000 * 60 * 60 * 24)⌋ →
        getDaysUntilShortage sd now =
          .days ⌊((t : ℚ) - (now : ℚ)) / (1000 * 60 * 60 * 24)⌋ ∧
        getDaysUntilShortageReport sd now =
          some ⌊((t : ℚ) - (now : ℚ)) / (1000 * 60 * 60 * 24)⌋) ∧
      (⌊((t : ℚ) - (now : ℚ)) / (1000 * 60 * 60 * 24)⌋ ≤ 0 →
        getDaysUntilShortage sd now = .stockOut ∧
        getDaysUntilShortageReport sd now = some 0)) := by
  constructor
  · rintro rfl
    exact ⟨rfl, rfl⟩
  · rintro t rfl
    constructor
    · intro h
      constructor <;> simp [getDaysUntilShortage, getDaysUntilShortageReport, h]
    · intro h
      constructor <;>
        simp [getDaysUntilShortage, getDaysUntilShortageReport, not_lt.mpr h]

theorem C8_days_amended_witness :
    (getDaysUntilShortage none 0 = .na ∧
      getDaysUntilShortageReport none 0 = none) ∧
    (getDaysUntilShortage (some 172800000) 0 = .days 2 ∧
      getDaysUntilShortageReport (some 172800000) 0 = some 2) := by
  refine ⟨(C8_days_amended none 0).1 rfl, ?_⟩
  have h := ((C8_days_amended (some 172800000) 0).2 172800000 rfl).1
  norm_num at h
  exact h

/-- C7 counterexample: two critical rows stored with codes B then A come back
in that stored order, so the result is not ordered by material code inside
the critical tier. -/
theorem C7_reorder_counterexample :
    fetchReorderMaterials [⟨"B", .critical⟩, ⟨"A", .critical⟩] =
        [⟨"B", .critical⟩, ⟨"A", .critical⟩] ∧
    ¬ withinTierByCode
        (fetchReorderMaterials [⟨"B", .critical⟩, ⟨"A", .critical⟩]) := by
  have hred : fetchReorderMaterials [⟨"B", .critical⟩, ⟨"A", .critical⟩] =
      [⟨"B", .critical⟩, ⟨"A", .critical⟩] := rfl
  refine ⟨hred, ?_⟩
  rw [hred]
  intro h
  have h1 := (List.pairwise_cons.mp h).1 ⟨"A", .critical⟩ (by simp) rfl
  refine h1 ?_
  rw [String.lt_iff_toList_lt]
  decide

/-- C7 amended: the query returns exactly the rows whose status is critical
or low, never a safe row, with every critical row before every low row; but
inside a tier the rows keep their stored relative order, with no ordering by
material code applied. -/
theorem C7_reorder_amended (rows : List ReorderMaterial) :
    fetchReorderMaterials rows =
        (rows.filter fun m => m.status == .critical) ++
          (rows.filter fun m => m.status == .low) ∧
    (∀ m ∈ fetchReorderMaterials rows, m ∈ rows ∧ m.status ≠ .safe) ∧
    (∀ m ∈ rows, m.status ≠ .safe → m ∈ fetchReorderMaterials rows) ∧
    (fetchReorderMaterials rows).Pairwise
      (fun a b => statusKey a.status ≤ statusKey b.status) := by
  have hmain : fetchReorderMaterials rows =
      (rows.filter fun m => m.status == .critical) ++
        (rows.filter fun m => m.status == .low) := by
    unfold fetchReorderMaterials orderByStatus reorderFilter
    simp only [List.filter_filter]
    have h2 : (rows.filter fun m =>
        (statusKey m.status == 2) && (m.status == .critical || m.status == .low)) =
        [] := by
      refine List.filter_eq_nil_iff.mpr ?_
      intro m _
      cases h : m.status <;> simp [statusKey, h]
    rw [h2, List.append_nil]
    congr 1
    · refine List.filter_congr ?_
      intro m _
      cases h : m.status <;> simp [statusKey]
    · refine List.filter_congr ?_
      intro m _
      cases h : m.status <;> simp [statusKey]
  refine ⟨hmain, ?_, ?_, ?_⟩
  · intro m hm
    rw [hmain, List.mem_append] at hm
    rcases hm with hm | hm <;> rw [List.mem_filter] at hm <;>
      refine ⟨hm.1, ?_⟩ <;> have := hm.2 <;> simp_all
  · intro m hm hsafe
    rw [hmain, List.mem_append]
    cases h : m.status
    · exact Or.inl (List.mem_filter.mpr ⟨hm, by simp [h]⟩)
    · exact Or.inr (List.mem_filter.mpr ⟨hm, by simp [h]⟩)
    · exact absurd h hsafe
  · rw [hmain]
    have hcrit : ∀ m ∈ rows.filter (fun m => m.status == StockStatus.critical),
        m.status = .critical := by
      intro m hm
      simpa using (List.mem_filter.mp hm).2
    have hlow : ∀ m ∈ rows.filter (fun m => m.status == StockStatus.low),
        m.status = .low := by
      intro m hm
      simpa using (List.mem_filter.mp hm).2
    refine List.pairwise_append.mpr ⟨?_, ?_, ?_⟩
    · refine List.pairwise_iff_forall_sublist.mpr ?_
      intro a b hsub
      have ha := hcrit a (hsub.subset (by simp))
      have hb := hcrit b (hsub.subset (by simp))
      simp [ha, hb]
    · refine List.pairwise_iff_forall_sublist.mpr ?_
      intro a b hsub
      have ha := hlow a (hsub.subset (by simp))
      have hb := hlow b (hsub.subset (by simp))
      simp [ha, hb]
    · intro a ha b hb
      rw [hcrit a ha, hlow b hb]
      simp [statusKey]

theorem C7_reorder_amended_witness :
    fetchReorderMaterials
        [⟨"L1", .low⟩, ⟨"S1", .safe⟩, ⟨"C1", .critical⟩] =
        [⟨"C1", .critical⟩, ⟨"L1", .low⟩] ∧
    (⟨"C1", .critical⟩ : ReorderMaterial) ∈
        fetchReorderMaterials
          [⟨"L1", .low⟩, ⟨"S1", .safe⟩, ⟨"C1", .critical⟩] :=
  ⟨(C7_reorder_amended [⟨"L1", .low⟩, ⟨"S1", .safe⟩, ⟨"C1", .critical⟩]).1,
   (C7_reorder_amended [⟨"L1", .low⟩, ⟨"S1", .safe⟩, ⟨"C1", .critical⟩]).2.2.1
     ⟨"C1", .critical⟩ (by simp) (by simp)⟩

/-- Evaluation of the no-user path of handleSubmit: with a selected and
found material, a nonnegative target quantity and no user identity, the
handler returns silently with the store untouched. -/
theorem handleSubmit_noUser (env : SubmitEnv) (db : Db) (m : ClientMaterial)
    (hsel : ¬ env.selectedMaterial = "")
    (hfind : env.materials.find? (fun x => x.id == env.selectedMaterial) =
      some m)
    (hpos : ¬ m.current_quantity + env.quantityChange < 0)
    (huser : env.user = none) :
    handleSubmit env db = (db, .silentNoUser) := by
  unfold handleSubmit
  rw [if_neg hsel, hfind]
  dsimp only
  rw [if_neg hpos, huser]

/-- Evaluation of the insert-failure path of handleSubmit: the materials
update has been applied and the handler stops at the failed history insert,
returning the store with the new quantity and the history unchanged. -/
theorem handleSubmit_insertFails (env : SubmitEnv) (db : Db)
    (m : ClientMaterial) (u : String)
    (hsel : ¬ env.selectedMaterial = "")
    (hfind : env.materials.find? (fun x => x.id == env.selectedMaterial) =
      some m)
    (hpos : ¬ m.current_quantity + env.quantityChange < 0)
    (huser : env.user = some u)
    (hupd : env.updateFails = false)
    (hins : env.insertFails = true) :
    handleSubmit env db =
      ({ db with materials := db.materials.map fun x =>
          if x.id == env.selectedMaterial then
            { x with
              current_quantity := m.current_quantity + env.quantityChange }
          else x }, .errHistory) := by
  unfold handleSubmit
  rw [if_neg hsel, hfind]
  dsimp only
  rw [if_neg hpos, huser]
  dsimp only
  rw [hupd, hins]
  simp

/-- C3: when the selected material is found and the requested delta would
drive its quantity negative, handleSubmit stops with the
quantity-cannot-be-negative rejection before any write: the store comes back
unchanged. -/
theorem C3_invalid_adjustment (env : SubmitEnv) (db : Db) (m : ClientMaterial)
    (hsel : ¬ env.selectedMaterial = "")
    (hfind : env.materials.find? (fun x => x.id == env.selectedMaterial) =
      some m)
    (hneg : m.current_quantity + env.quantityChange < 0) :
    handleSubmit env db = (db, .errNegative) := by
  unfold handleSubmit
  rw [if_neg hsel, hfind]
  exact if_pos hneg

theorem C3_invalid_adjustment_witness :
    handleSubmit envNegative steelDb = (steelDb, .errNegative) :=
  C3_invalid_adjustment envNegative steelDb steelClient (by decide) rfl
    (by norm_num [envNegative, steelClient])

/-- C4: a handleSubmit run either leaves the history unchanged or appends
exactly one entry, and an appended entry records quantity_before as the
selected client materials current quantity, quantity_change as the requested
delta, quantity_after = quantity_before + quantity_change, and a
nonnegative quantity_after. -/
theorem C4_history_invariant (env : SubmitEnv) (db : Db) :
    (handleSubmit env db).1.stock_history = db.stock_history ∨
    (∃ e m,
      env.materials.find? (fun x => x.id == env.selectedMaterial) = some m ∧
      (handleSubmit env db).1.stock_history = e :: db.stock_history ∧
      e.quantity_before = m.current_quantity ∧
      e.quantity_change = env.quantityChange ∧
      e.quantity_after = e.quantity_before + e.quantity_change ∧
      0 ≤ e.quantity_after) := by
  by_cases h1 : env.selectedMaterial = ""
  · exact Or.inl (by simp [handleSubmit, h1])
  rcases hfind : env.materials.find? (fun x => x.id == env.selectedMaterial)
    with _ | m
  · exact Or.inl (by simp [handleSubmit, h1, hfind])
  by_cases h2 : m.current_quantity + env.quantityChange < 0
  · exact Or.inl (by simp [handleSubmit, h1, hfind, h2])
  rcases huser : env.user with _ | u
  · exact Or.inl (by simp [handleSubmit, h1, hfind, h2, huser])
  cases h3 : env.updateFails with
  | true => exact Or.inl (by simp [handleSubmit, h1, hfind, h2, huser, h3])
  | false =>
    cases h4 : env.insertFails with
    | true =>
      exact Or.inl (by simp [handleSubmit, h1, hfind, h2, huser, h3, h4])
    | false =>
      refine Or.inr ⟨⟨env.selectedMaterial, u, m.current_quantity,
          m.current_quantity + env.quantityChange, env.quantityChange,
          env.reason,
          if env.notes = "" then none else some env.notes⟩, m, hfind,
        ?_, rfl, rfl, rfl, not_lt.mp h2⟩
      simp [handleSubmit, h1, hfind, h2, huser, h3, h4]

/-- C2: violated by the code. In the insert-failure scenario the handler
leaves the store with the material quantity updated to 400 while the
history is still empty: the materials update and the stock_history insert
are two separate requests with no shared transaction, and a failed insert
is only reported by toast, never rolled back. -/
theorem C2_atomicity_violated :
    (handleSubmit envInsertFailure steelDb).1.materials ≠ steelDb.materials ∧
    (handleSubmit envInsertFailure steelDb).1.stock_history =
      steelDb.stock_history ∧
    handleSubmit envInsertFailure steelDb =
      ({ materials := [{ id := "m1", current_quantity := 400 }],
         stock_history := [] }, .errHistory) := by
  have hrun : handleSubmit envInsertFailure steelDb =
      ({ materials := [{ id := "m1", current_quantity := 400 }],
         stock_history := [] }, .errHistory) := by
    have h := handleSubmit_insertFails envInsertFailure steelDb steelClient
      "u1" (by decide) rfl (by norm_num [envInsertFailure, steelClient]) rfl
      rfl rfl
    rw [h]
    norm_num [envInsertFailure, steelDb, steelClient]
  refine ⟨?_, ?_, hrun⟩
  · rw [hrun]
    norm_num [steelDb]
  · rw [hrun]
    rfl

/-- C9 counterexample: with no user identity the handler returns before any
write but silently: the outcome raises no toast at all, unlike the other
failure paths, so the failure is swallowed rather than surfaced. -/
theorem C9_unauth_counterexample :
    handleSubmit envNoUser steelDb = (steelDb, .silentNoUser) ∧
    isSurfacedError .silentNoUser = false := by
  constructor
  · exact handleSubmit_noUser envNoUser steelDb steelClient (by decide) rfl
      (by norm_num [envNoUser, steelClient]) rfl
  · rfl

/-- C9 amended: when no actor identity is available the handler stops before
performing any write, the store unchanged, but the failure is a silent
return rather than a surfaced error. -/
theorem C9_unauth_amended (env : SubmitEnv) (db : Db) (m : ClientMaterial)
    (hsel : ¬ env.selectedMaterial = "")
    (hfind : env.materials.find? (fun x => x.id == env.selectedMaterial) =
      some m)
    (hpos : ¬ m.current_quantity + env.quantityChange < 0)
    (huser : env.user = none) :
    handleSubmit env db = (db, .silentNoUser) ∧
    isSurfacedError (handleSubmit env db).2 = false := by
  have hmain : handleSubmit env db = (db, .silentNoUser) :=
    handleSubmit_noUser env db m hsel hfind hpos huser
  refine ⟨hmain, ?_⟩
  rw [hmain]
  rfl

theorem C9_unauth_amended_witness :
    handleSubmit envNoUser steelDb = (steelDb, .silentNoUser) ∧
    isSurfacedError (handleSubmit envNoUser steelDb).2 = false :=
  C9_unauth_amended envNoUser steelDb steelClient (by decide) rfl
    (by norm_num [envNoUser, steelClient]) rfl

end Inventory
